import Mathlib

/-!
# Gator RSS aggregator: ingestion cycle, fetcher, browse and follow handlers

A shallow embedding of `internal/commands/commands.go`.

The handlers talk to three collaborators whose code is not part of
`commands.go`: the generated `database.Queries` store, the network
(`net/http`) and the Go standard library (`time`, `strconv`, `html`,
`encoding/xml`).  They are taken as an environment `Env W` of operations over
an arbitrary world state `W`; the general theorems hold for every
environment, and a reference environment (`memEnv`) instantiates them at
sample inputs.  Each handler returns, next to its Go result, the
chronological trace of the calls it made (`Event`), so that "calls X before
Y" and "makes no call to Z" are statements about that trace.

Go `error` values are represented by their `Error()` text, and a Go result
pair `(v, err)` by `v × Option String` (`none` is `nil`).
-/

namespace Gator

/-! ## Data model -/

/-- Identifier `uuid.UUID` (16 bytes), read as a number; `uuid.Nil` is `0`. -/
abbrev UUID := Nat

/-- Value `time.Time`: seconds and nanoseconds since January 1, year 1,
00:00:00 UTC, and the zone offset it is displayed in. -/
structure Time where
  sec : Int
  nsec : Nat
  offset : Int
  deriving DecidableEq, Repr

/-- Method `Time.IsZero`: the instant is January 1, year 1, 00:00:00 UTC
(the zone does not matter). -/
def Time.IsZero (t : Time) : Bool := t.sec == 0 && t.nsec == 0

/-- Value `sql.NullString`. -/
structure NullString where
  String : String
  Valid : Bool
  deriving DecidableEq, Repr

/-- Value `sql.NullTime`. -/
structure NullTime where
  Time : Time
  Valid : Bool
  deriving DecidableEq, Repr

/-- Value `uuid.NullUUID`. -/
structure NullUUID where
  UUID : UUID
  Valid : Bool
  deriving DecidableEq, Repr

/-- Row `database.Feed`, with the fields `commands.go` reads. -/
structure Feed where
  ID : UUID
  Name : String
  Url : String
  UserID : NullUUID
  CreatedAt : NullTime
  UpdatedAt : NullTime
  deriving DecidableEq, Repr

/-- Argument `database.CreatePostParams`, as `scrapeFeeds` fills it. -/
structure CreatePostParams where
  FeedID : UUID
  Title : String
  Description : NullString
  Url : String
  PublishedAt : NullTime
  deriving DecidableEq, Repr

/-- Argument `database.CreateFeedFollowParams`. -/
structure CreateFeedFollowParams where
  UserID : UUID
  FeedID : UUID
  deriving DecidableEq, Repr

/-- Row returned by `CreateFeedFollow`, with the fields `HandlerFollow` prints. -/
structure CreateFeedFollowRow where
  UserName : String
  FeedName : String
  deriving DecidableEq, Repr

/-- Row `database.User`, with the field the handlers read. -/
structure User where
  ID : UUID
  Name : String
  deriving DecidableEq, Repr

/-- Struct `Item` of `commands.go`. -/
structure Item where
  Title : String
  Description : String
  Link : String
  PubDate : String
  deriving DecidableEq, Repr

/-- Struct `RSSFeed` of `commands.go`. -/
structure RSSFeed where
  Title : String
  Description : String
  Items : List Item
  deriving DecidableEq, Repr

/-- Struct `Command` of `commands.go`. -/
structure Command where
  Name : String
  Args : List String
  deriving DecidableEq, Repr

/-- What `client.Do` hands back on success: the status code, the status text
and what `io.ReadAll(resp.Body)` gives. -/
structure Response where
  StatusCode : Int
  Status : String
  Body : Except String String

/-! ## Observable calls -/

/-- One externally visible call made by a handler. -/
inductive Event where
  | GetNextFeedToFetch
  | MarkFeedFetched (id : UUID)
  | CreatePost (arg : CreatePostParams)
  | GetFeedByURL (url : String)
  | CreateFeedFollow (arg : CreateFeedFollowParams)
  | HttpGet (url : String) (userAgent : String)
  | Now (t : Time)
  | NewTicker (d : Int)
  | Tick
  | Printf (s : String)
  deriving DecidableEq, Repr

/-- The call is a store call (a method of `database.Queries`). -/
def Event.isStore : Event → Bool
  | .GetNextFeedToFetch => true
  | .MarkFeedFetched _ => true
  | .CreatePost _ => true
  | .GetFeedByURL _ => true
  | .CreateFeedFollow _ => true
  | _ => false

/-- The call is the network call `client.Do`. -/
def Event.isFetch : Event → Bool
  | .HttpGet _ _ => true
  | _ => false

/-- The call is an item insertion. -/
def Event.isCreatePost : Event → Bool
  | .CreatePost _ => true
  | _ => false

/-- The call is a mark-fetched call. -/
def Event.isMark : Event → Bool
  | .MarkFeedFetched _ => true
  | _ => false

/-- Argument of an item insertion, if the call is one. -/
def Event.createPostArg : Event → Option CreatePostParams
  | .CreatePost p => some p
  | _ => none

/-! ## Collaborators -/

/-- The store, the network and the library functions `commands.go` calls,
over a world state `W`. -/
structure Env (W : Type) where
  /-- Query `s.DB.GetNextFeedToFetch`. -/
  GetNextFeedToFetch : W → (Feed × Option String) × W
  /-- Query `s.DB.MarkFeedFetched`. -/
  MarkFeedFetched : UUID → W → Option String × W
  /-- Query `s.DB.CreatePost`; the returned row is discarded by the caller. -/
  CreatePost : CreatePostParams → W → Option String × W
  /-- Query `s.DB.GetFeedByURL`. -/
  GetFeedByURL : String → W → (Feed × Option String) × W
  /-- Query `s.DB.CreateFeedFollow`. -/
  CreateFeedFollow : CreateFeedFollowParams → W → (CreateFeedFollowRow × Option String) × W
  /-- Error of `http.NewRequestWithContext(ctx, "GET", url, nil)`, if any. -/
  NewRequest : String → Option String
  /-- Call `client.Do(req)` for a GET of the URL. -/
  Do : String → W → Except String Response × W
  /-- Function `xml.Unmarshal(body, &feed)` on a zero `RSSFeed`. -/
  Unmarshal : String → Except String RSSFeed
  /-- Function `html.UnescapeString`. -/
  UnescapeString : String → String
  /-- Function `time.Parse(time.RFC1123Z, ·)`. -/
  ParseRFC1123Z : String → Except String Time
  /-- Function `time.Now`. -/
  Now : W → Time × W
  /-- Function `time.ParseDuration`, in nanoseconds. -/
  ParseDuration : String → Except String Int
  /-- Method `Duration.String`. -/
  DurationString : Int → String
  /-- Function `strconv.Atoi`. -/
  Atoi : String → Except String Int

/-! ## `fetchFeed` -/

/-- Lines 292-298 of `fetchFeed`: unescape the feed title and description and
each item's title and description, in place. -/
def unescapeFeed (unescape : String → String) (feed : RSSFeed) : RSSFeed :=
  { Title := unescape feed.Title
    Description := unescape feed.Description
    Items := feed.Items.map fun it =>
      { it with Title := unescape it.Title, Description := unescape it.Description } }

/-- Function `fetchFeed`: the snapshot or the error, the calls made, and the
world afterwards. -/
def fetchFeed {W : Type} (env : Env W) (feedURL : String) (w : W) :
    Except String RSSFeed × List Event × W :=
  match env.NewRequest feedURL with
  | some err => (.error ("failed to create request: " ++ err), [], w)
  | none =>
    let r := env.Do feedURL w
    let evs := [Event.HttpGet feedURL "gator"]
    match r.1 with
    | .error err => (.error ("failed to fetch feed: " ++ err), evs, r.2)
    | .ok resp =>
      if resp.StatusCode ≠ 200 then
        (.error ("error fetching feed: " ++ resp.Status), evs, r.2)
      else
        match resp.Body with
        | .error err => (.error ("failed to read response body: " ++ err), evs, r.2)
        | .ok body =>
          match env.Unmarshal body with
          | .error err => (.error ("failed to unmarshal XML: " ++ err), evs, r.2)
          | .ok feed => (.ok (unescapeFeed env.UnescapeString feed), evs, r.2)

/-! ## `scrapeFeeds` -/

/-- Lines 229-232 of `scrapeFeeds`: the parsed publication date, or the
current time when parsing fails. -/
def pubDateOf {W : Type} (env : Env W) (item : Item) (w : W) : Time × List Event × W :=
  match env.ParseRFC1123Z item.PubDate with
  | .ok t => (t, [], w)
  | .error _ =>
    let r := env.Now w
    (r.1, [Event.Now r.1], r.2)

/-- Lines 235-241 of `scrapeFeeds`: the argument of `CreatePost`. -/
def postParams (feedID : UUID) (item : Item) (pubDate : Time) : CreatePostParams :=
  { FeedID := feedID
    Title := item.Title
    Description := { String := item.Description, Valid := item.Description != "" }
    Url := item.Link
    PublishedAt := { Time := pubDate, Valid := !pubDate.IsZero } }

/-- Lines 242-248 of `scrapeFeeds`: what the loop prints after an insertion,
given the error the store returned. -/
def saveMessage (item : Item) : Option String → String
  | some err => "Error saving feed item: " ++ err ++ "\n"
  | none => "Saved Feed Item: " ++ item.Title ++ "\n"

/-- Body of the first loop of `scrapeFeeds` (lines 227-249) for one item. -/
def saveItem {W : Type} (env : Env W) (feedID : UUID) (item : Item) (w : W) :
    List Event × W :=
  let d := pubDateOf env item w
  let arg := postParams feedID item d.1
  let r := env.CreatePost arg d.2.2
  (d.2.1 ++ [Event.CreatePost arg, Event.Printf (saveMessage item r.1)], r.2)

/-- First loop of `scrapeFeeds` (lines 227-249). -/
def saveItems {W : Type} (env : Env W) (feedID : UUID) : List Item → W → List Event × W
  | [], w => ([], w)
  | item :: rest, w =>
    let r := saveItem env feedID item w
    let r2 := saveItems env feedID rest r.2
    (r.1 ++ r2.1, r2.2)

/-- Second loop of `scrapeFeeds` (lines 252-254). -/
def printTitles (items : List Item) : List Event :=
  items.map fun item => Event.Printf ("Feed Item Title: " ++ item.Title ++ "\n")

/-- Function `scrapeFeeds`: one ingestion cycle. -/
def scrapeFeeds {W : Type} (env : Env W) (w : W) : List Event × W :=
  let r1 := env.GetNextFeedToFetch w
  let feed := r1.1.1
  match r1.1.2 with
  | some err =>
    ([Event.GetNextFeedToFetch, Event.Printf ("Error fetching next feed: " ++ err ++ "\n")],
      r1.2)
  | none =>
    let r2 := env.MarkFeedFetched feed.ID r1.2
    match r2.1 with
    | some err =>
      ([Event.GetNextFeedToFetch, Event.MarkFeedFetched feed.ID,
        Event.Printf ("Error marking feed as fetched: " ++ err ++ "\n")], r2.2)
    | none =>
      let r3 := fetchFeed env feed.Url r2.2
      match r3.1 with
      | .error err =>
        ([Event.GetNextFeedToFetch, Event.MarkFeedFetched feed.ID] ++ r3.2.1 ++
          [Event.Printf ("Error fetching feed " ++ feed.Url ++ ": " ++ err ++ "\n")], r3.2.2)
      | .ok rssFeed =>
        let r4 := saveItems env feed.ID rssFeed.Items r3.2.2
        ([Event.GetNextFeedToFetch, Event.MarkFeedFetched feed.ID] ++ r3.2.1 ++ r4.1 ++
          printTitles rssFeed.Items, r4.2)

/-! ## `HandlerAgg` -/

/-- How a handler invocation ends: it returns its `error` (`none` is `nil`),
it panics, or it is still inside its endless loop when observation stops. -/
inductive Outcome where
  | returned (err : Option String)
  | panicked (msg : String)
  | running
  deriving DecidableEq, Repr

/-- Function `time.NewTicker`: it panics on a non-positive interval. -/
def NewTicker (d : Int) : Except String Unit :=
  if d ≤ 0 then .error "non-positive interval for NewTicker" else .ok ()

/-- Loop of `HandlerAgg` (lines 197-200), observed for `cycles` iterations:
a cycle, then the wait for the next tick. -/
def aggLoop {W : Type} (env : Env W) : Nat → W → List Event × W
  | 0, w => ([], w)
  | cycles + 1, w =>
    let r := scrapeFeeds env w
    let r2 := aggLoop env cycles r.2
    (r.1 ++ Event.Tick :: r2.1, r2.2)

/-- Function `HandlerAgg`, its loop observed for `cycles` iterations. -/
def HandlerAgg {W : Type} (env : Env W) (cycles : Nat) (cmd : Command) (w : W) :
    Outcome × List Event × W :=
  match cmd.Args with
  | [] => (.returned (some "time_between_reqs is required"), [], w)
  | arg :: _ =>
    match env.ParseDuration arg with
    | .error err => (.returned (some ("invalid duration: " ++ err)), [], w)
    | .ok timeBetweenRequests =>
      let pr := Event.Printf
        ("Collecting feeds every " ++ env.DurationString timeBetweenRequests ++ "\n")
      match NewTicker timeBetweenRequests with
      | .error msg => (.panicked msg, [pr], w)
      | .ok _ =>
        let r := aggLoop env cycles w
        (.running, pr :: Event.NewTicker timeBetweenRequests :: r.1, r.2)

/-! ## `HandlerBrowse` -/

/-- Lines 464-473 of `HandlerBrowse`: the limit, from the arguments after the
URL, or the usage error. -/
def browseLimit {W : Type} (env : Env W) : List String → Except String Int
  | [] => .ok 2
  | arg :: _ =>
    match env.Atoi arg with
    | .error _ => .error "invalid limit: must be a positive integer"
    | .ok parsedLimit =>
      if parsedLimit ≤ 0 then .error "invalid limit: must be a positive integer"
      else .ok parsedLimit

/-- Text printed by `HandlerBrowse` for one item (line 487). -/
def browseLine (item : Item) : String :=
  "  - " ++ item.Title ++ "\n    " ++ item.Description ++ "\n    Link: " ++ item.Link ++ "\n"

/-- Loop of `HandlerBrowse` (lines 483-488), from index `i` on. -/
def browseItems (limit : Int) : Nat → List Item → List Event
  | _, [] => []
  | i, item :: rest =>
    if (i : Int) ≥ limit then []
    else Event.Printf (browseLine item) :: browseItems limit (i + 1) rest

/-- Function `HandlerBrowse`. -/
def HandlerBrowse {W : Type} (env : Env W) (cmd : Command) (w : W) :
    Option String × List Event × W :=
  match cmd.Args with
  | [] => (some "usage: browse <feed_url> [limit]", [], w)
  | feedURL :: rest =>
    match browseLimit env rest with
    | .error msg => (some msg, [], w)
    | .ok limit =>
      let r := fetchFeed env feedURL w
      match r.1 with
      | .error err => (some ("error fetching feed: " ++ err), r.2.1, r.2.2)
      | .ok rssFeed =>
        (none,
          r.2.1 ++ Event.Printf ("Browsing feed: " ++ rssFeed.Title ++ "\n") ::
            browseItems limit 0 rssFeed.Items,
          r.2.2)

/-! ## `HandlerFollow` -/

/-- Text of `sql.ErrNoRows`, which the handlers compare error texts with. -/
def errNoRows : String := "sql: no rows in result set"

/-- Function `HandlerFollow`. -/
def HandlerFollow {W : Type} (env : Env W) (cmd : Command) (user : User) (w : W) :
    Option String × List Event × W :=
  match cmd.Args with
  | [url] =>
    let r := env.GetFeedByURL url w
    let feed := r.1.1
    let lookupFailed : Option String :=
      match r.1.2 with
      | some err => if err ≠ errNoRows then some err else none
      | none => none
    match lookupFailed with
    | some err =>
      (some ("failed to find feed with URL " ++ url ++ ": " ++ err),
        [Event.GetFeedByURL url], r.2)
    | none =>
      let arg : CreateFeedFollowParams := { UserID := user.ID, FeedID := feed.ID }
      let r2 := env.CreateFeedFollow arg r.2
      match r2.1.2 with
      | some err =>
        (some ("failed to follow feed: " ++ err),
          [Event.GetFeedByURL url, Event.CreateFeedFollow arg], r2.2)
      | none =>
        (none,
          [Event.GetFeedByURL url, Event.CreateFeedFollow arg,
            Event.Printf ("User " ++ r2.1.1.UserName ++ " is now following feed " ++
              r2.1.1.FeedName ++ "\n")],
          r2.2)
  | _ => (some "usage: follow <url>", [], w)

/-! ## A reference environment

An in-memory store, a table-driven network and small models of the library
functions.  The theorems do not depend on it: it instantiates them at concrete
inputs. -/

/-- In-memory world: the feeds in fetch order (the head is the next feed to
fetch), the stored posts and follows, the pages the network serves, and the
clock. -/
structure World where
  feeds : List Feed
  posts : List CreatePostParams
  follows : List CreateFeedFollowParams
  pages : List (String × Response)
  clock : Int

/-- The zero `database.Feed`, which a failed query returns. -/
def zeroFeed : Feed :=
  { ID := 0, Name := "", Url := ""
    UserID := { UUID := 0, Valid := false }
    CreatedAt := { Time := { sec := 0, nsec := 0, offset := 0 }, Valid := false }
    UpdatedAt := { Time := { sec := 0, nsec := 0, offset := 0 }, Valid := false } }

/-- Value of a string of decimal digits read left to right onto `acc`;
`none` on any other character. -/
def digitsValue : List Char → Nat → Option Nat
  | [], acc => some acc
  | c :: cs, acc =>
    if 48 ≤ c.toNat ∧ c.toNat ≤ 57 then digitsValue cs (10 * acc + (c.toNat - 48))
    else none

/-- Unsigned decimal number: at least one digit, digits only. -/
def decimalValue : List Char → Option Nat
  | [] => none
  | cs => digitsValue cs 0

/-- Model of `strconv.Atoi` on a 64-bit platform: an optional sign, then
decimal digits, the value within the range of `int`. -/
def strconvAtoi (s : String) : Except String Int :=
  let signed : Option Int :=
    match s.data with
    | '-' :: cs => (decimalValue cs).map fun n => -(n : Int)
    | '+' :: cs => (decimalValue cs).map fun n => (n : Int)
    | cs => (decimalValue cs).map fun n => (n : Int)
  match signed with
  | none => .error "strconv.Atoi: invalid syntax"
  | some n =>
    if -(2 ^ 63 : Int) ≤ n ∧ n < 2 ^ 63 then .ok n
    else .error "strconv.Atoi: value out of range"

/-- Nanoseconds of a duration unit. -/
def unitNanos : List Char → Option Int
  | ['n', 's'] => some 1
  | ['u', 's'] => some 1000
  | ['m', 's'] => some 1000000
  | ['s'] => some 1000000000
  | ['m'] => some 60000000000
  | ['h'] => some 3600000000000
  | _ => none

/-- Model of `time.ParseDuration` restricted to one integer component:
an optional sign, decimal digits and a unit (or the bare `0`). -/
def parseDuration1 (s : String) : Except String Int :=
  let split : Bool × List Char :=
    match s.data with
    | '-' :: cs => (true, cs)
    | '+' :: cs => (false, cs)
    | cs => (false, cs)
  let body := split.2
  if body = ['0'] then .ok 0
  else
    let isDigit := fun (c : Char) => decide (48 ≤ c.toNat ∧ c.toNat ≤ 57)
    match decimalValue (body.takeWhile isDigit), unitNanos (body.dropWhile isDigit) with
    | some n, some k =>
      if (n : Int) * k < 2 ^ 63 then .ok (if split.1 then -((n : Int) * k) else (n : Int) * k)
      else .error "time: invalid duration"
    | _, _ => .error "time: invalid duration"

/-- Model of `Duration.String` for whole seconds (`0s`, `5s`, `1m0s`,
`2h0m5s`, with a leading `-` when negative); any other duration is shown as
its count of nanoseconds. -/
def durationString1 (d : Int) : String :=
  let n := d.natAbs
  if n % 1000000000 ≠ 0 then toString d ++ "ns"
  else
    let secs := n / 1000000000
    let sign := if d < 0 then "-" else ""
    let h := secs / 3600
    let m := secs / 60 % 60
    let s := secs % 60
    if h > 0 then sign ++ toString h ++ "h" ++ toString m ++ "m" ++ toString s ++ "s"
    else if m > 0 then sign ++ toString m ++ "m" ++ toString s ++ "s"
    else sign ++ toString s ++ "s"

/-- Model of `html.UnescapeString` restricted to the entities `&amp;`,
`&lt;` and `&gt;`: one left-to-right pass, the replacement text is not
scanned again. -/
def unescapeChars : List Char → List Char
  | [] => []
  | '&' :: 'a' :: 'm' :: 'p' :: ';' :: rest => '&' :: unescapeChars rest
  | '&' :: 'l' :: 't' :: ';' :: rest => '<' :: unescapeChars rest
  | '&' :: 'g' :: 't' :: ';' :: rest => '>' :: unescapeChars rest
  | c :: rest => c :: unescapeChars rest

/-- String form of `unescapeChars`. -/
def unescapeBasic (s : String) : String := ⟨unescapeChars s.data⟩

/-- Lookup in an association list keyed by strings. -/
def lookupStr {α : Type} (key : String) : List (String × α) → Option α
  | [] => none
  | (k, v) :: rest => if k = key then some v else lookupStr key rest

/-- Reference environment over `World`.  `decode` stands for `xml.Unmarshal`
and `dates` for `time.Parse(time.RFC1123Z, ·)`, each given as a table.
The store rejects a post whose URL is already stored and a follow of a feed
that does not exist. -/
def memEnv (decode : List (String × RSSFeed)) (dates : List (String × Time)) : Env World where
  GetNextFeedToFetch w :=
    match w.feeds with
    | [] => ((zeroFeed, some errNoRows), w)
    | feed :: _ => ((feed, none), w)
  MarkFeedFetched id w :=
    (none,
      { w with feeds := w.feeds.filter (fun f => f.ID != id) ++
                        w.feeds.filter (fun f => f.ID == id) })
  CreatePost arg w :=
    if w.posts.any (fun p => p.Url == arg.Url) then
      (some "pq: duplicate key value violates unique constraint", w)
    else (none, { w with posts := w.posts ++ [arg] })
  GetFeedByURL url w :=
    match w.feeds.find? (fun f => f.Url == url) with
    | some feed => ((feed, none), w)
    | none => ((zeroFeed, some errNoRows), w)
  CreateFeedFollow arg w :=
    match w.feeds.find? (fun f => f.ID == arg.FeedID) with
    | some feed =>
      (({ UserName := "user", FeedName := feed.Name }, none),
        { w with follows := w.follows ++ [arg] })
    | none =>
      (({ UserName := "", FeedName := "" },
        some "pq: insert or update violates foreign key constraint"), w)
  NewRequest _ := none
  Do url w :=
    match lookupStr url w.pages with
    | some resp => (.ok resp, w)
    | none => (.error "dial tcp: no such host", w)
  Unmarshal body :=
    match lookupStr body decode with
    | some feed => .ok feed
    | none => .error "EOF"
  UnescapeString := unescapeBasic
  ParseRFC1123Z s :=
    match lookupStr s dates with
    | some t => .ok t
    | none => .error "parsing time: cannot parse"
  Now w := ({ sec := w.clock, nsec := 0, offset := 0 }, { w with clock := w.clock + 1 })
  ParseDuration := parseDuration1
  DurationString := durationString1
  Atoi := strconvAtoi


/-! ## Sample inputs -/

/-- A feed row with the given identifier, name and URL. -/
def mkFeed (id : UUID) (name url : String) : Feed :=
  { zeroFeed with ID := id, Name := name, Url := url }

/-- Text that `time.Parse(time.RFC1123Z, ·)` reads as the zero instant. -/
def zeroDate : String := "Mon, 01 Jan 0001 00:00:00 +0000"

/-- The layout's own reference date. -/
def refDate : String := "Mon, 02 Jan 2006 15:04:05 -0700"

/-- A decoded feed with three items: the first has no description and a
date that does not parse, the second repeats the first one's link and is
dated at the zero instant, the third is well formed. -/
def sampleDecoded : RSSFeed :=
  { Title := "News &amp; Notes"
    Description := "a &amp;lt; b"
    Items :=
      [ { Title := "one &lt;1&gt;", Description := "", Link := "http://a/1",
          PubDate := "yesterday" },
        { Title := "two", Description := "d2", Link := "http://a/1", PubDate := zeroDate },
        { Title := "three", Description := "d3 &amp; more", Link := "http://a/3",
          PubDate := refDate } ] }

/-- Reference environment in which the body `A` decodes to `sampleDecoded`. -/
def sampleEnv : Env World :=
  memEnv [("A", sampleDecoded)]
    [(zeroDate, { sec := 0, nsec := 0, offset := 0 }),
     (refDate, { sec := 63271836245, nsec := 0, offset := -25200 })]

/-- A world with two feeds: `http://a` serves the body `A`, `http://b`
answers with status 500. -/
def sampleWorld : World :=
  { feeds := [mkFeed 7 "A" "http://a", mkFeed 8 "B" "http://b"]
    posts := []
    follows := []
    pages :=
      [ ("http://a", { StatusCode := 200, Status := "200 OK", Body := .ok "A" }),
        ("http://b",
          { StatusCode := 500, Status := "500 Internal Server Error", Body := .ok "" }) ]
    clock := 63800000000 }

/-- The sample world with the failing feed first in line. -/
def sampleWorldB : World :=
  { sampleWorld with feeds := [mkFeed 8 "B" "http://b", mkFeed 7 "A" "http://a"] }

/-- The sample world with an empty feed table. -/
def emptyWorld : World := { sampleWorld with feeds := [] }

/-- The sample environment with a store whose mark-fetched query fails. -/
def markFailEnv : Env World :=
  { sampleEnv with MarkFeedFetched := fun _ w => (some "driver: bad connection", w) }

/-! ## Shape of the traces -/

/-- A fetch makes at most one network call, for the URL it was given. -/
theorem fetchFeed_events {W : Type} (env : Env W) (feedURL : String) (w : W) :
    (fetchFeed env feedURL w).2.1 = [] ∨
      (fetchFeed env feedURL w).2.1 = [Event.HttpGet feedURL "gator"] := by
  unfold fetchFeed
  split
  · exact Or.inl rfl
  · right
    dsimp only
    split
    · rfl
    · split
      · rfl
      · split
        · rfl
        · split <;> rfl

/-- A cycle whose feed selection fails stops after reporting the error. -/
theorem scrapeFeeds_of_select_error {W : Type} (env : Env W) (w w1 : W) (feed : Feed)
    (err : String) (hsel : env.GetNextFeedToFetch w = ((feed, some err), w1)) :
    scrapeFeeds env w =
      ([Event.GetNextFeedToFetch,
        Event.Printf ("Error fetching next feed: " ++ err ++ "\n")], w1) := by
  simp [scrapeFeeds, hsel]

/-- A cycle whose fetch fails stops after reporting the error. -/
theorem scrapeFeeds_of_fetch_error {W : Type} (env : Env W) (w w1 w2 : W) (feed : Feed)
    (err : String) (hsel : env.GetNextFeedToFetch w = ((feed, none), w1))
    (hmark : env.MarkFeedFetched feed.ID w1 = (none, w2))
    (hfetch : (fetchFeed env feed.Url w2).1 = .error err) :
    scrapeFeeds env w =
      ([Event.GetNextFeedToFetch, Event.MarkFeedFetched feed.ID] ++
        (fetchFeed env feed.Url w2).2.1 ++
        [Event.Printf ("Error fetching feed " ++ feed.Url ++ ": " ++ err ++ "\n")],
        (fetchFeed env feed.Url w2).2.2) := by
  simp [scrapeFeeds, hsel, hmark, hfetch]

/-- A cycle whose selection, marking and fetch succeed saves the items of
the snapshot and then prints their titles. -/
theorem scrapeFeeds_of_fetch_ok {W : Type} (env : Env W) (w w1 w2 : W) (feed : Feed)
    (rssFeed : RSSFeed) (hsel : env.GetNextFeedToFetch w = ((feed, none), w1))
    (hmark : env.MarkFeedFetched feed.ID w1 = (none, w2))
    (hfetch : (fetchFeed env feed.Url w2).1 = .ok rssFeed) :
    scrapeFeeds env w =
      ([Event.GetNextFeedToFetch, Event.MarkFeedFetched feed.ID] ++
        (fetchFeed env feed.Url w2).2.1 ++
        (saveItems env feed.ID rssFeed.Items (fetchFeed env feed.Url w2).2.2).1 ++
        printTitles rssFeed.Items,
        (saveItems env feed.ID rssFeed.Items (fetchFeed env feed.Url w2).2.2).2) := by
  simp [scrapeFeeds, hsel, hmark, hfetch]


/-- The calls of one iteration of the first loop: the clock read when the
date does not parse, then the insertion, then a print. -/
theorem saveItem_events {W : Type} (env : Env W) (feedID : UUID) (item : Item) (w : W) :
    ∃ pre msg,
      (saveItem env feedID item w).1 =
        pre ++ [Event.CreatePost (postParams feedID item (pubDateOf env item w).1),
          Event.Printf msg] ∧
      pre = (pubDateOf env item w).2.1 ∧
      (pre = [] ∨ pre = [Event.Now (pubDateOf env item w).1]) := by
  refine ⟨(pubDateOf env item w).2.1, _, rfl, rfl, ?_⟩
  unfold pubDateOf
  split
  · exact Or.inl rfl
  · exact Or.inr rfl

/-- The loop over a concatenation is the loop over the first part followed
by the loop over the second part, started in the world the first left. -/
theorem saveItems_append {W : Type} (env : Env W) (feedID : UUID) (xs ys : List Item) (w : W) :
    saveItems env feedID (xs ++ ys) w =
      ((saveItems env feedID xs w).1 ++
          (saveItems env feedID ys (saveItems env feedID xs w).2).1,
        (saveItems env feedID ys (saveItems env feedID xs w).2).2) := by
  induction xs generalizing w with
  | nil => simp [saveItems]
  | cons x xs ih => simp [saveItems, ih, List.append_assoc]

/-- The insertions of the first loop, by feed, title, description and
link: one per item, in the order of the items. -/
theorem saveItems_createPostArgs {W : Type} (env : Env W) (feedID : UUID) (items : List Item)
    (w : W) :
    ((saveItems env feedID items w).1.filterMap Event.createPostArg).map
        (fun p => (p.FeedID, p.Title, p.Description, p.Url)) =
      items.map fun item =>
        (feedID, item.Title,
          ({ String := item.Description, Valid := item.Description != "" } : NullString),
          item.Link) := by
  induction items generalizing w with
  | nil => simp [saveItems]
  | cons x xs ih =>
    obtain ⟨pre, msg, h, -, hpre⟩ := saveItem_events env feedID x w
    simp only [saveItems, List.filterMap_append, List.map_append, List.map_cons, ih, h]
    rcases hpre with hpre | hpre <;>
      simp [hpre, Event.createPostArg, postParams]

/-- The fetch makes no store call. -/
theorem fetchFeed_no_store {W : Type} (env : Env W) (feedURL : String) (w : W) :
    ∀ e ∈ (fetchFeed env feedURL w).2.1, e.isStore = false := by
  intro e he
  rcases fetchFeed_events env feedURL w with h | h <;> rw [h] at he <;> simp at he
  subst he
  rfl

/-- Printing the titles makes no store, network or clock call. -/
theorem printTitles_printed (items : List Item) :
    ∀ e ∈ printTitles items, ∃ s, e = Event.Printf s := by
  intro e he
  simp only [printTitles, List.mem_map] at he
  obtain ⟨item, -, rfl⟩ := he
  exact ⟨_, rfl⟩


/-! ## Claims about the ingestion cycle -/

/-- C1: if feed selection and marking succeed but the fetch fails, the cycle
has called mark-fetched for exactly the selected feed, before the fetch (whose
only call is the GET of that feed's URL), and makes no `CreatePost` call. -/
theorem scrapeFeeds_fetch_failure {W : Type} (env : Env W) (w w1 w2 : W) (feed : Feed)
    (err : String) (hsel : env.GetNextFeedToFetch w = ((feed, none), w1))
    (hmark : env.MarkFeedFetched feed.ID w1 = (none, w2))
    (hfetch : (fetchFeed env feed.Url w2).1 = .error err) :
    (scrapeFeeds env w).1 =
        [Event.GetNextFeedToFetch, Event.MarkFeedFetched feed.ID] ++
          (fetchFeed env feed.Url w2).2.1 ++
          [Event.Printf ("Error fetching feed " ++ feed.Url ++ ": " ++ err ++ "\n")] ∧
      (∀ e ∈ (fetchFeed env feed.Url w2).2.1, e = Event.HttpGet feed.Url "gator") ∧
      (scrapeFeeds env w).1.filter Event.isMark = [Event.MarkFeedFetched feed.ID] ∧
      (scrapeFeeds env w).1.filter Event.isCreatePost = [] := by
  rw [scrapeFeeds_of_fetch_error env w w1 w2 feed err hsel hmark hfetch]
  refine ⟨rfl, ?_, ?_, ?_⟩
  · intro e he
    rcases fetchFeed_events env feed.Url w2 with h | h <;> rw [h] at he <;> simp at he
    exact he
  · rcases fetchFeed_events env feed.Url w2 with h | h <;>
      simp [h, List.filter, Event.isMark]
  · rcases fetchFeed_events env feed.Url w2 with h | h <;>
      simp [h, List.filter, Event.isCreatePost]

/-- Witness of C1: the feed `http://b` answers 500; the cycle marks feed 8,
fetches, reports the error and inserts nothing. -/
theorem scrapeFeeds_fetch_failure_witness :
    (scrapeFeeds sampleEnv sampleWorldB).1 =
        [Event.GetNextFeedToFetch, Event.MarkFeedFetched 8,
          Event.HttpGet "http://b" "gator",
          Event.Printf
            "Error fetching feed http://b: error fetching feed: 500 Internal Server Error\n"] ∧
      (scrapeFeeds sampleEnv sampleWorldB).1.filter Event.isCreatePost = [] :=
  have h := scrapeFeeds_fetch_failure sampleEnv sampleWorldB sampleWorldB
    (sampleEnv.MarkFeedFetched 8 sampleWorldB).2 (mkFeed 8 "B" "http://b")
    "error fetching feed: 500 Internal Server Error" rfl rfl rfl
  ⟨h.1.trans (by decide), h.2.2.2⟩


/-- The insertions of a cycle whose fetch succeeded, by feed, title,
description and link: one per item of the snapshot, in its order. -/
theorem scrapeFeeds_createPostArgs {W : Type} (env : Env W) (w w1 w2 : W) (feed : Feed)
    (rssFeed : RSSFeed) (hsel : env.GetNextFeedToFetch w = ((feed, none), w1))
    (hmark : env.MarkFeedFetched feed.ID w1 = (none, w2))
    (hfetch : (fetchFeed env feed.Url w2).1 = .ok rssFeed) :
    ((scrapeFeeds env w).1.filterMap Event.createPostArg).map
          (fun p => (p.FeedID, p.Title, p.Description, p.Url)) =
        rssFeed.Items.map (fun item =>
          (feed.ID, item.Title,
            ({ String := item.Description, Valid := item.Description != "" } : NullString),
            item.Link)) := by
  rw [scrapeFeeds_of_fetch_ok env w w1 w2 feed rssFeed hsel hmark hfetch]
  have hfetchEv : (fetchFeed env feed.Url w2).2.1.filterMap Event.createPostArg = [] := by
    rcases fetchFeed_events env feed.Url w2 with h | h <;> simp [h, Event.createPostArg]
  have hprint : (printTitles rssFeed.Items).filterMap Event.createPostArg = [] := by
    rw [List.filterMap_eq_nil_iff]
    intro e he
    obtain ⟨s, rfl⟩ := printTitles_printed _ e he
    rfl
  simp only [List.filterMap_append, hfetchEv, hprint, List.append_nil]
  simpa [Event.createPostArg] using
    saveItems_createPostArgs env feed.ID rssFeed.Items (fetchFeed env feed.Url w2).2.2

/-- C2: when selection, marking and fetch succeed, the cycle issues one
`CreatePost` per item of the snapshot, in the order of the snapshot, each
with the selected feed's ID and the item's title, description and link,
whatever the store answers to each insertion (the environment is arbitrary,
so any subset of the insertions may fail); the loop over the items after any
item starts in whatever world that item's insertion left. -/
theorem scrapeFeeds_inserts_every_item {W : Type} (env : Env W) (w w1 w2 : W) (feed : Feed)
    (rssFeed : RSSFeed) (hsel : env.GetNextFeedToFetch w = ((feed, none), w1))
    (hmark : env.MarkFeedFetched feed.ID w1 = (none, w2))
    (hfetch : (fetchFeed env feed.Url w2).1 = .ok rssFeed) :
    ((scrapeFeeds env w).1.filterMap Event.createPostArg).map
          (fun p => (p.FeedID, p.Title, p.Description, p.Url)) =
        rssFeed.Items.map (fun item =>
          (feed.ID, item.Title,
            ({ String := item.Description, Valid := item.Description != "" } : NullString),
            item.Link)) ∧
      ∀ pre item post, rssFeed.Items = pre ++ item :: post →
        ∀ w3, (saveItems env feed.ID rssFeed.Items w3).1 =
          (saveItems env feed.ID pre w3).1 ++
            (saveItem env feed.ID item (saveItems env feed.ID pre w3).2).1 ++
            (saveItems env feed.ID post
              (saveItem env feed.ID item (saveItems env feed.ID pre w3).2).2).1 := by
  constructor
  · exact scrapeFeeds_createPostArgs env w w1 w2 feed rssFeed hsel hmark hfetch
  · intro pre item post hsplit w3
    rw [hsplit, saveItems_append]
    simp [saveItems, List.append_assoc]

/-- Witness of C2: the second item of the sample feed repeats the first one's
link and is rejected by the store; the third is attempted all the same, and
the store ends with the first and the third. -/
theorem scrapeFeeds_inserts_every_item_witness :
    ((scrapeFeeds sampleEnv sampleWorld).1.filterMap Event.createPostArg).map
          (fun p => (p.FeedID, p.Title, p.Description, p.Url)) =
        [ (7, "one <1>", { String := "", Valid := false }, "http://a/1"),
          (7, "two", { String := "d2", Valid := true }, "http://a/1"),
          (7, "three", { String := "d3 & more", Valid := true }, "http://a/3") ] ∧
      (scrapeFeeds sampleEnv sampleWorld).2.posts.map (fun p => p.Title) =
        ["one <1>", "three"] :=
  ⟨(scrapeFeeds_inserts_every_item sampleEnv sampleWorld sampleWorld
      (sampleEnv.MarkFeedFetched 7 sampleWorld).2 (mkFeed 7 "A" "http://a")
      (unescapeFeed unescapeBasic sampleDecoded) rfl rfl rfl).1.trans (by decide),
    by decide⟩


/-- One iteration of the first loop when the date parses: the store is
asked to insert the item with the parsed time, the clock is not read, and the
world is the one the store left. -/
theorem saveItem_of_parse_ok {W : Type} (env : Env W) (feedID : UUID) (item : Item) (w : W)
    (t : Time) (hparse : env.ParseRFC1123Z item.PubDate = .ok t) :
    saveItem env feedID item w =
      ([Event.CreatePost (postParams feedID item t),
        Event.Printf (saveMessage item (env.CreatePost (postParams feedID item t) w).1)],
        (env.CreatePost (postParams feedID item t) w).2) := by
  simp only [saveItem, pubDateOf, hparse]
  rfl

/-- One iteration of the first loop when the date does not parse: the clock
is read, the store is asked, in the world the clock read left, to insert the
item with the time read, and the world is the one the store left. -/
theorem saveItem_of_parse_error {W : Type} (env : Env W) (feedID : UUID) (item : Item) (w : W)
    (e : String) (hparse : env.ParseRFC1123Z item.PubDate = .error e) :
    saveItem env feedID item w =
      ([Event.Now (env.Now w).1, Event.CreatePost (postParams feedID item (env.Now w).1),
        Event.Printf (saveMessage item
          (env.CreatePost (postParams feedID item (env.Now w).1) (env.Now w).2).1)],
        (env.CreatePost (postParams feedID item (env.Now w).1) (env.Now w).2).2) := by
  simp only [saveItem, pubDateOf, hparse]
  rfl

/-- C3: in a cycle whose fetch succeeded, take the item at any position of
the snapshot, `wk` being the world the insertions of the items before it
left.  When its `pubDate` parses in the RFC1123Z layout to `t`, the store's
`CreatePost` is applied in `wk` to the item's parameters with published time
`t`.  When it does not parse, `time.Now` is read in `wk`, giving `tnow`, and
`CreatePost` is applied, in the world the clock read left, to the item's
parameters with published time `tnow`.  In both cases the cycle reports what
the store answered, goes on with the later items from the world the store left,
and ends in the world they leave. -/
theorem scrapeFeeds_published_time {W : Type} (env : Env W) (w w1 w2 w3 wk : W) (feed : Feed)
    (rssFeed : RSSFeed) (pre post : List Item) (item : Item) (fetchEvs preEvs : List Event)
    (hsel : env.GetNextFeedToFetch w = ((feed, none), w1))
    (hmark : env.MarkFeedFetched feed.ID w1 = (none, w2))
    (hfetch : fetchFeed env feed.Url w2 = (.ok rssFeed, fetchEvs, w3))
    (hsplit : rssFeed.Items = pre ++ item :: post)
    (hpre : saveItems env feed.ID pre w3 = (preEvs, wk)) :
    (∀ t res wk2, env.ParseRFC1123Z item.PubDate = .ok t →
      env.CreatePost (postParams feed.ID item t) wk = (res, wk2) →
      scrapeFeeds env w =
        ([Event.GetNextFeedToFetch, Event.MarkFeedFetched feed.ID] ++ fetchEvs ++ preEvs ++
            [Event.CreatePost (postParams feed.ID item t),
              Event.Printf (saveMessage item res)] ++
            (saveItems env feed.ID post wk2).1 ++ printTitles rssFeed.Items,
          (saveItems env feed.ID post wk2).2)) ∧
    (∀ e tnow wn res wk2, env.ParseRFC1123Z item.PubDate = .error e →
      env.Now wk = (tnow, wn) →
      env.CreatePost (postParams feed.ID item tnow) wn = (res, wk2) →
      scrapeFeeds env w =
        ([Event.GetNextFeedToFetch, Event.MarkFeedFetched feed.ID] ++ fetchEvs ++ preEvs ++
            [Event.Now tnow, Event.CreatePost (postParams feed.ID item tnow),
              Event.Printf (saveMessage item res)] ++
            (saveItems env feed.ID post wk2).1 ++ printTitles rssFeed.Items,
          (saveItems env feed.ID post wk2).2)) ∧
    (∀ t, (postParams feed.ID item t).PublishedAt.Time = t ∧
      (postParams feed.ID item t).FeedID = feed.ID ∧
      (postParams feed.ID item t).Title = item.Title ∧
      (postParams feed.ID item t).Url = item.Link) := by
  have hfetch1 : (fetchFeed env feed.Url w2).1 = .ok rssFeed := by rw [hfetch]
  have htrace := scrapeFeeds_of_fetch_ok env w w1 w2 feed rssFeed hsel hmark hfetch1
  rw [hfetch] at htrace
  simp only at htrace
  have hloop : saveItems env feed.ID rssFeed.Items w3 =
      (preEvs ++ ((saveItem env feed.ID item wk).1 ++
          (saveItems env feed.ID post (saveItem env feed.ID item wk).2).1),
        (saveItems env feed.ID post (saveItem env feed.ID item wk).2).2) := by
    rw [hsplit, saveItems_append, hpre]
    simp only [saveItems]
  rw [hloop] at htrace
  refine ⟨?_, ?_, fun t => ⟨rfl, rfl, rfl, rfl⟩⟩
  · intro t res wk2 ht hcreate
    have hitem := saveItem_of_parse_ok env feed.ID item wk t ht
    rw [hcreate] at hitem
    rw [hitem] at htrace
    rw [htrace]
    simp only [List.append_assoc]
  · intro e tnow wn res wk2 he hnow hcreate
    have hitem := saveItem_of_parse_error env feed.ID item wk e he
    rw [hnow] at hitem
    simp only at hitem
    rw [hcreate] at hitem
    rw [hitem] at htrace
    rw [htrace]
    simp only [List.append_assoc]

/-- Witness of C3: the first sample item is dated `yesterday`, which does not
parse, so the clock is read (63800000000) and the store receives the item with
that time; the third is dated with the layout's reference date and the store
receives it with the parsed time (63271836245, zone -0700).  The store ends
holding both with those times. -/
theorem scrapeFeeds_published_time_witness :
    (scrapeFeeds sampleEnv sampleWorld).1.take 6 =
        [Event.GetNextFeedToFetch, Event.MarkFeedFetched 7, Event.HttpGet "http://a" "gator",
          Event.Now { sec := 63800000000, nsec := 0, offset := 0 },
          Event.CreatePost
            { FeedID := 7, Title := "one <1>",
              Description := { String := "", Valid := false },
              Url := "http://a/1",
              PublishedAt :=
                { Time := { sec := 63800000000, nsec := 0, offset := 0 }, Valid := true } },
          Event.Printf "Saved Feed Item: one <1>\n"] ∧
      ((scrapeFeeds sampleEnv sampleWorld).1.drop 8).take 2 =
        [Event.CreatePost
            { FeedID := 7, Title := "three",
              Description := { String := "d3 & more", Valid := true },
              Url := "http://a/3",
              PublishedAt :=
                { Time := { sec := 63271836245, nsec := 0, offset := -25200 },
                  Valid := true } },
          Event.Printf "Saved Feed Item: three\n"] ∧
      (scrapeFeeds sampleEnv sampleWorld).2.posts.map
          (fun p => (p.Title, p.PublishedAt.Time)) =
        [("one <1>", { sec := 63800000000, nsec := 0, offset := 0 }),
          ("three", { sec := 63271836245, nsec := 0, offset := -25200 })] :=
  have hfirst := (scrapeFeeds_published_time sampleEnv sampleWorld sampleWorld
    (sampleEnv.MarkFeedFetched 7 sampleWorld).2 (sampleEnv.MarkFeedFetched 7 sampleWorld).2
    (sampleEnv.MarkFeedFetched 7 sampleWorld).2 (mkFeed 7 "A" "http://a")
    (unescapeFeed unescapeBasic sampleDecoded) []
    ((unescapeFeed unescapeBasic sampleDecoded).Items.drop 1)
    { Title := "one <1>", Description := "", Link := "http://a/1", PubDate := "yesterday" }
    [Event.HttpGet "http://a" "gator"] [] rfl rfl rfl rfl rfl).2.1
    "parsing time: cannot parse" { sec := 63800000000, nsec := 0, offset := 0 }
    (sampleEnv.Now (sampleEnv.MarkFeedFetched 7 sampleWorld).2).2 none
    (sampleEnv.CreatePost
      (postParams 7
        { Title := "one <1>", Description := "", Link := "http://a/1", PubDate := "yesterday" }
        { sec := 63800000000, nsec := 0, offset := 0 })
      (sampleEnv.Now (sampleEnv.MarkFeedFetched 7 sampleWorld).2).2).2
    rfl rfl rfl
  have hthird := (scrapeFeeds_published_time sampleEnv sampleWorld sampleWorld
    (sampleEnv.MarkFeedFetched 7 sampleWorld).2 (sampleEnv.MarkFeedFetched 7 sampleWorld).2
    (saveItems sampleEnv 7 ((unescapeFeed unescapeBasic sampleDecoded).Items.take 2)
      (sampleEnv.MarkFeedFetched 7 sampleWorld).2).2
    (mkFeed 7 "A" "http://a") (unescapeFeed unescapeBasic sampleDecoded)
    ((unescapeFeed unescapeBasic sampleDecoded).Items.take 2) []
    { Title := "three", Description := "d3 & more", Link := "http://a/3", PubDate := refDate }
    [Event.HttpGet "http://a" "gator"]
    (saveItems sampleEnv 7 ((unescapeFeed unescapeBasic sampleDecoded).Items.take 2)
      (sampleEnv.MarkFeedFetched 7 sampleWorld).2).1
    rfl rfl rfl rfl rfl).1
    { sec := 63271836245, nsec := 0, offset := -25200 } none
    (sampleEnv.CreatePost
      (postParams 7
        { Title := "three", Description := "d3 & more", Link := "http://a/3",
          PubDate := refDate }
        { sec := 63271836245, nsec := 0, offset := -25200 })
      (saveItems sampleEnv 7 ((unescapeFeed unescapeBasic sampleDecoded).Items.take 2)
        (sampleEnv.MarkFeedFetched 7 sampleWorld).2).2).2
    rfl rfl
  ⟨(congrArg (fun r => r.1.take 6) hfirst).trans (by decide),
    (congrArg (fun r => (r.1.drop 8).take 2) hthird).trans (by decide),
    (congrArg (fun r => r.2.posts.map (fun p => (p.Title, p.PublishedAt.Time))) hthird).trans
      (by decide)⟩

/-- C8: when feed selection fails, the cycle only reports the error: its
trace is the selection call and one print, so it makes no mark-fetched call,
no network call and no insertion; it returns, and the loop of `HandlerAgg`
goes on to wait for the tick and run the next cycle. -/
theorem scrapeFeeds_selection_failure {W : Type} (env : Env W) (w w1 : W) (feed : Feed)
    (err : String) (cycles : Nat)
    (hsel : env.GetNextFeedToFetch w = ((feed, some err), w1)) :
    scrapeFeeds env w =
        ([Event.GetNextFeedToFetch,
          Event.Printf ("Error fetching next feed: " ++ err ++ "\n")], w1) ∧
      (∀ e ∈ (scrapeFeeds env w).1,
        e.isMark = false ∧ e.isFetch = false ∧ e.isCreatePost = false) ∧
      aggLoop env (cycles + 1) w =
        ([Event.GetNextFeedToFetch,
            Event.Printf ("Error fetching next feed: " ++ err ++ "\n"), Event.Tick] ++
          (aggLoop env cycles w1).1, (aggLoop env cycles w1).2) := by
  have h := scrapeFeeds_of_select_error env w w1 feed err hsel
  refine ⟨h, ?_, ?_⟩
  · intro e he
    rw [h] at he
    simp only [List.mem_cons, List.mem_singleton, List.not_mem_nil, or_false] at he
    rcases he with rfl | rfl <;> exact ⟨rfl, rfl, rfl⟩
  · simp [aggLoop, h]

/-- Witness of C8: with an empty feed table the store answers "no rows"; two
observed iterations of the loop are two such cycles, each followed by the
wait for the tick. -/
theorem scrapeFeeds_selection_failure_witness :
    scrapeFeeds sampleEnv emptyWorld =
        ([Event.GetNextFeedToFetch,
          Event.Printf "Error fetching next feed: sql: no rows in result set\n"],
          emptyWorld) ∧
      (aggLoop sampleEnv 2 emptyWorld).1 =
        [Event.GetNextFeedToFetch,
          Event.Printf "Error fetching next feed: sql: no rows in result set\n", Event.Tick,
          Event.GetNextFeedToFetch,
          Event.Printf "Error fetching next feed: sql: no rows in result set\n",
          Event.Tick] :=
  have h := scrapeFeeds_selection_failure sampleEnv emptyWorld emptyWorld zeroFeed
    errNoRows 1 rfl
  ⟨h.1, (congrArg Prod.fst h.2.2).trans (by decide)⟩


/-- Every insertion of the first loop is built by `postParams` from one of
the items. -/
theorem saveItems_createPost_mem {W : Type} (env : Env W) (feedID : UUID) (items : List Item)
    (w : W) (p : CreatePostParams) (hp : Event.CreatePost p ∈ (saveItems env feedID items w).1) :
    ∃ item ∈ items, ∃ t, p = postParams feedID item t := by
  induction items generalizing w with
  | nil => simp [saveItems] at hp
  | cons x xs ih =>
    simp only [saveItems, List.mem_append] at hp
    rcases hp with hp | hp
    · obtain ⟨pre, msg, h, -, hpre⟩ := saveItem_events env feedID x w
      rw [h] at hp
      refine ⟨x, List.mem_cons_self _ _, (pubDateOf env x w).1, ?_⟩
      rcases hpre with hpre | hpre <;> simpa [hpre] using hp
    · obtain ⟨item, hmem, t, ht⟩ := ih _ hp
      exact ⟨item, List.mem_cons_of_mem _ hmem, t, ht⟩

/-- A cycle whose marking fails stops after reporting the error. -/
theorem scrapeFeeds_of_mark_error {W : Type} (env : Env W) (w w1 w2 : W) (feed : Feed)
    (err : String) (hsel : env.GetNextFeedToFetch w = ((feed, none), w1))
    (hmark : env.MarkFeedFetched feed.ID w1 = (some err, w2)) :
    scrapeFeeds env w =
      ([Event.GetNextFeedToFetch, Event.MarkFeedFetched feed.ID,
        Event.Printf ("Error marking feed as fetched: " ++ err ++ "\n")], w2) := by
  simp [scrapeFeeds, hsel, hmark]

/-- Every insertion of a cycle is built by `postParams`. -/
theorem scrapeFeeds_createPost_mem {W : Type} (env : Env W) (w : W) (p : CreatePostParams)
    (hp : Event.CreatePost p ∈ (scrapeFeeds env w).1) :
    ∃ feedID item t, p = postParams feedID item t := by
  rcases hsel : env.GetNextFeedToFetch w with ⟨⟨feed, _ | err⟩, w1⟩
  · rcases hmark : env.MarkFeedFetched feed.ID w1 with ⟨_ | err, w2⟩
    · rcases hfetch : (fetchFeed env feed.Url w2).1 with err | rssFeed
      · rw [scrapeFeeds_of_fetch_error env w w1 w2 feed err hsel hmark hfetch] at hp
        rcases fetchFeed_events env feed.Url w2 with h | h <;> rw [h] at hp <;> simp at hp
      · rw [scrapeFeeds_of_fetch_ok env w w1 w2 feed rssFeed hsel hmark hfetch] at hp
        simp only [List.mem_append] at hp
        rcases hp with ((hp | hp) | hp) | hp
        · simp at hp
        · rcases fetchFeed_events env feed.Url w2 with h | h <;> rw [h] at hp <;> simp at hp
        · obtain ⟨item, -, t, ht⟩ := saveItems_createPost_mem env _ _ _ p hp
          exact ⟨_, item, t, ht⟩
        · obtain ⟨s, hs⟩ := printTitles_printed _ _ hp
          exact absurd hs (by simp)
    · rw [scrapeFeeds_of_mark_error env w w1 w2 feed err hsel hmark] at hp
      simp at hp
  · rw [scrapeFeeds_of_select_error env w w1 feed err hsel] at hp
    simp at hp

/-- C10 (amended): in a cycle whose fetch succeeded, the insertions carry,
item by item and in order, the item's description with the null marker set
exactly when the description is the empty string; and every insertion
carries its published timestamp marked valid exactly when that timestamp is
not the zero instant.  A `pubDate` that parses to the zero instant is
therefore passed marked null. -/
theorem scrapeFeeds_null_markers {W : Type} (env : Env W) (w w1 w2 : W) (feed : Feed)
    (rssFeed : RSSFeed) (hsel : env.GetNextFeedToFetch w = ((feed, none), w1))
    (hmark : env.MarkFeedFetched feed.ID w1 = (none, w2))
    (hfetch : (fetchFeed env feed.Url w2).1 = .ok rssFeed) :
    ((scrapeFeeds env w).1.filterMap Event.createPostArg).map
          (fun p => (p.Description.String, p.Description.Valid)) =
        rssFeed.Items.map (fun item => (item.Description, !(item.Description == ""))) ∧
      (∀ p, Event.CreatePost p ∈ (scrapeFeeds env w).1 →
        p.PublishedAt.Valid = !p.PublishedAt.Time.IsZero ∧
        (p.Description.Valid = false ↔ p.Description.String = "")) := by
  constructor
  · have h := (scrapeFeeds_createPostArgs env w w1 w2 feed rssFeed hsel hmark hfetch)
    have h2 := congrArg (List.map fun (q : UUID × String × NullString × String) =>
      (q.2.2.1.String, q.2.2.1.Valid)) h
    simpa [List.map_map, Function.comp_def, bne] using h2
  · intro p hp
    obtain ⟨feedID, item, t, rfl⟩ := scrapeFeeds_createPost_mem env w p hp
    simp [postParams]

/-- Witness of C10 (amended): the three sample insertions carry the null
marker for the empty description only, and the second one, dated at the zero
instant, carries its timestamp marked null. -/
theorem scrapeFeeds_null_markers_witness :
    ((scrapeFeeds sampleEnv sampleWorld).1.filterMap Event.createPostArg).map
          (fun p => (p.Description.String, p.Description.Valid)) =
        [("", false), ("d2", true), ("d3 & more", true)] ∧
      ((scrapeFeeds sampleEnv sampleWorld).1.filterMap Event.createPostArg).map
          (fun p => (p.PublishedAt.Time.IsZero, p.PublishedAt.Valid)) =
        [(false, true), (true, false), (false, true)] :=
  ⟨(scrapeFeeds_null_markers sampleEnv sampleWorld sampleWorld
      (sampleEnv.MarkFeedFetched 7 sampleWorld).2 (mkFeed 7 "A" "http://a")
      (unescapeFeed unescapeBasic sampleDecoded) rfl rfl rfl).1.trans (by decide),
    by decide⟩

/-- C10 (counterexample): the second sample item is dated
`Mon, 01 Jan 0001 00:00:00 +0000`, which `time.Parse` reads as the zero
instant; the insertion issued for it carries the timestamp marked null, so
not every insertion carries a valid published timestamp. -/
theorem published_valid_counterexample :
    sampleEnv.ParseRFC1123Z "Mon, 01 Jan 0001 00:00:00 +0000" =
        .ok { sec := 0, nsec := 0, offset := 0 } ∧
      Event.CreatePost
          { FeedID := 7, Title := "two", Description := { String := "d2", Valid := true },
            Url := "http://a/1",
            PublishedAt := { Time := { sec := 0, nsec := 0, offset := 0 }, Valid := false } } ∈
        (scrapeFeeds sampleEnv sampleWorld).1 ∧
      ¬ ∀ p, Event.CreatePost p ∈ (scrapeFeeds sampleEnv sampleWorld).1 →
        p.PublishedAt.Valid = true :=
  ⟨rfl, by decide, fun h =>
    absurd (h { FeedID := 7, Title := "two", Description := { String := "d2", Valid := true },
                Url := "http://a/1",
                PublishedAt := { Time := { sec := 0, nsec := 0, offset := 0 }, Valid := false } }
      (by decide)) (by decide)⟩


/-! ## Claims about `HandlerAgg` -/

/-- C4: an interval that is not a duration string makes `HandlerAgg` return
the error `invalid duration: ...` with no call made, however long the loop is
observed.  An interval that parses to a non-positive duration is not rejected:
the handler prints its banner and `time.NewTicker` panics; no cycle runs and
no store or network call is made, but no error is returned. -/
theorem HandlerAgg_interval_check {W : Type} (env : Env W) (cycles : Nat) (name arg : String)
    (rest : List String) (w : W) :
    (∀ e, env.ParseDuration arg = .error e →
      HandlerAgg env cycles { Name := name, Args := arg :: rest } w =
        (.returned (some ("invalid duration: " ++ e)), [], w)) ∧
    (∀ d, env.ParseDuration arg = .ok d → d ≤ 0 →
      HandlerAgg env cycles { Name := name, Args := arg :: rest } w =
        (.panicked "non-positive interval for NewTicker",
          [Event.Printf ("Collecting feeds every " ++ env.DurationString d ++ "\n")], w)) := by
  constructor
  · intro e he
    simp [HandlerAgg, he]
  · intro d hd hle
    simp [HandlerAgg, hd, NewTicker, hle]

/-- Witness of C4: `abc` is refused with an error; `0s` and `-5s` parse, and
the handler panics in `time.NewTicker` after printing its banner. -/
theorem HandlerAgg_interval_check_witness :
    HandlerAgg sampleEnv 3 { Name := "agg", Args := ["abc"] } sampleWorld =
        (.returned (some "invalid duration: time: invalid duration"), [], sampleWorld) ∧
      HandlerAgg sampleEnv 3 { Name := "agg", Args := ["0s"] } sampleWorld =
        (.panicked "non-positive interval for NewTicker",
          [Event.Printf "Collecting feeds every 0s\n"], sampleWorld) ∧
      HandlerAgg sampleEnv 3 { Name := "agg", Args := ["-5s"] } sampleWorld =
        (.panicked "non-positive interval for NewTicker",
          [Event.Printf "Collecting feeds every -5s\n"], sampleWorld) :=
  ⟨(HandlerAgg_interval_check sampleEnv 3 "agg" "abc" [] sampleWorld).1
      "time: invalid duration" rfl,
    (HandlerAgg_interval_check sampleEnv 3 "agg" "0s" [] sampleWorld).2 0 rfl (by decide),
    (HandlerAgg_interval_check sampleEnv 3 "agg" "-5s" [] sampleWorld).2 (-5000000000) rfl
      (by decide)⟩

/-- With a positive interval the loop is entered: the ticker is created and
the observed cycles run. -/
theorem HandlerAgg_of_positive {W : Type} (env : Env W) (cycles : Nat) (name arg : String)
    (rest : List String) (w : W) (d : Int) (hparse : env.ParseDuration arg = .ok d)
    (hpos : 0 < d) :
    HandlerAgg env cycles { Name := name, Args := arg :: rest } w =
      (.running,
        Event.Printf ("Collecting feeds every " ++ env.DurationString d ++ "\n") ::
          Event.NewTicker d :: (aggLoop env cycles w).1,
        (aggLoop env cycles w).2) := by
  have h : ¬ d ≤ 0 := not_le.mpr hpos
  simp [HandlerAgg, hparse, NewTicker, h]


/-! ## Claims about `HandlerBrowse` -/

/-- The loop of `HandlerBrowse` prints the items at indices below the limit. -/
theorem browseItems_eq_take (limit : Int) (i : Nat) (items : List Item) :
    browseItems limit i items =
      (items.take (limit.toNat - i)).map fun item => Event.Printf (browseLine item) := by
  induction items generalizing i with
  | nil => simp [browseItems]
  | cons x xs ih =>
    unfold browseItems
    by_cases h : (i : Int) ≥ limit
    · have h0 : limit.toNat - i = 0 := by omega
      simp [h, h0]
    · have h1 : limit.toNat - i = (limit.toNat - (i + 1)) + 1 := by omega
      rw [if_neg h, ih, h1, List.take_succ_cons, List.map_cons]

/-- C5: a limit argument that does not parse as an integer, or parses to an
integer at most 0, makes `HandlerBrowse` return the usage error with no call
made (no fetch); a limit argument that parses to an integer at least 1 passes
the check, and the handler goes on to the fetch of the URL: its trace starts
with the calls of that fetch and its world is the one the fetch left. -/
theorem HandlerBrowse_limit_check {W : Type} (env : Env W) (name feedURL arg : String)
    (more : List String) (w : W) :
    (((∃ e, env.Atoi arg = .error e) ∨ (∃ n, env.Atoi arg = .ok n ∧ n ≤ 0)) →
      HandlerBrowse env { Name := name, Args := feedURL :: arg :: more } w =
        (some "invalid limit: must be a positive integer", [], w)) ∧
    (∀ n, env.Atoi arg = .ok n → 1 ≤ n →
      browseLimit env (arg :: more) = .ok n ∧
      (HandlerBrowse env { Name := name, Args := feedURL :: arg :: more } w).1 ≠
        some "invalid limit: must be a positive integer" ∧
      (∃ tail,
        (HandlerBrowse env { Name := name, Args := feedURL :: arg :: more } w).2.1 =
          (fetchFeed env feedURL w).2.1 ++ tail) ∧
      (HandlerBrowse env { Name := name, Args := feedURL :: arg :: more } w).2.2 =
        (fetchFeed env feedURL w).2.2) := by
  constructor
  · rintro (⟨e, he⟩ | ⟨n, hn, hle⟩)
    · simp [HandlerBrowse, browseLimit, he]
    · simp [HandlerBrowse, browseLimit, hn, hle]
  · intro n hn hpos
    have hnot : ¬ n ≤ 0 := by omega
    have hlimit : browseLimit env (arg :: more) = .ok n := by
      simp [browseLimit, hn, hnot]
    refine ⟨hlimit, ?_, ?_, ?_⟩
    · rcases hfetch : (fetchFeed env feedURL w).1 with err | rssFeed
      · simp only [HandlerBrowse, hlimit, hfetch]
        intro h
        have h2 := congrArg (fun s : String => s.data.head?) (Option.some.inj h)
        simp [String.data_append] at h2
      · simp [HandlerBrowse, hlimit, hfetch]
    · rcases hfetch : (fetchFeed env feedURL w).1 with err | rssFeed
      · exact ⟨[], by simp [HandlerBrowse, hlimit, hfetch]⟩
      · exact ⟨Event.Printf ("Browsing feed: " ++ rssFeed.Title ++ "\n") ::
          browseItems n 0 rssFeed.Items, by simp only [HandlerBrowse, hlimit, hfetch]⟩
    · rcases hfetch : (fetchFeed env feedURL w).1 with err | rssFeed <;>
        simp [HandlerBrowse, hlimit, hfetch]

/-- Witness of C5: the limits `0`, `-1` and `abc` are refused before any
call; the limit `3` passes the check and the GET of the URL is made. -/
theorem HandlerBrowse_limit_check_witness :
    HandlerBrowse sampleEnv { Name := "browse", Args := ["http://a", "0"] } sampleWorld =
        (some "invalid limit: must be a positive integer", [], sampleWorld) ∧
      HandlerBrowse sampleEnv { Name := "browse", Args := ["http://a", "-1"] } sampleWorld =
        (some "invalid limit: must be a positive integer", [], sampleWorld) ∧
      HandlerBrowse sampleEnv { Name := "browse", Args := ["http://a", "abc"] } sampleWorld =
        (some "invalid limit: must be a positive integer", [], sampleWorld) ∧
      browseLimit sampleEnv ["3"] = .ok 3 ∧
      ∃ tail,
        (HandlerBrowse sampleEnv { Name := "browse", Args := ["http://a", "3"] }
            sampleWorld).2.1 =
          [Event.HttpGet "http://a" "gator"] ++ tail :=
  ⟨(HandlerBrowse_limit_check sampleEnv "browse" "http://a" "0" [] sampleWorld).1
      (Or.inr ⟨0, rfl, by decide⟩),
    (HandlerBrowse_limit_check sampleEnv "browse" "http://a" "-1" [] sampleWorld).1
      (Or.inr ⟨-1, rfl, by decide⟩),
    (HandlerBrowse_limit_check sampleEnv "browse" "http://a" "abc" [] sampleWorld).1
      (Or.inl ⟨"strconv.Atoi: invalid syntax", rfl⟩),
    ((HandlerBrowse_limit_check sampleEnv "browse" "http://a" "3" [] sampleWorld).2 3 rfl
      (by decide)).1,
    ((HandlerBrowse_limit_check sampleEnv "browse" "http://a" "3" [] sampleWorld).2 3 rfl
      (by decide)).2.2.1⟩

/-- C6: with a successful fetch of a snapshot and a valid limit `L` (2 when
no limit argument is given, else the parsed argument, at least 1),
`HandlerBrowse` returns `nil`; after the calls of the fetch it prints the feed
title and then, in source order, the title, description and link of the first
`min L n` of the `n` items and nothing else; none of its calls is a store
call. -/
theorem HandlerBrowse_output {W : Type} (env : Env W) (name feedURL : String)
    (rest : List String) (w : W) (rssFeed : RSSFeed) (L : Int)
    (hlimit : (rest = [] ∧ L = 2) ∨
      (∃ arg more, rest = arg :: more ∧ env.Atoi arg = .ok L ∧ 1 ≤ L))
    (hfetch : (fetchFeed env feedURL w).1 = .ok rssFeed) :
    HandlerBrowse env { Name := name, Args := feedURL :: rest } w =
        (none,
          (fetchFeed env feedURL w).2.1 ++
            Event.Printf ("Browsing feed: " ++ rssFeed.Title ++ "\n") ::
              (rssFeed.Items.take (min L.toNat rssFeed.Items.length)).map
                (fun item => Event.Printf
                  ("  - " ++ item.Title ++ "\n    " ++ item.Description ++ "\n    Link: " ++
                    item.Link ++ "\n")),
          (fetchFeed env feedURL w).2.2) ∧
      (∀ e ∈ (HandlerBrowse env { Name := name, Args := feedURL :: rest } w).2.1,
        e.isStore = false) := by
  have hL : browseLimit env rest = .ok L := by
    rcases hlimit with ⟨rfl, rfl⟩ | ⟨arg, more, rfl, hatoi, hpos⟩
    · rfl
    · have hnot : ¬ L ≤ 0 := by omega
      simp [browseLimit, hatoi, hnot]
  have hmin : (rssFeed.Items.take (min L.toNat rssFeed.Items.length)) =
      rssFeed.Items.take L.toNat := by
    rw [List.take_eq_take]
    omega
  have hrun : HandlerBrowse env { Name := name, Args := feedURL :: rest } w =
      (none,
        (fetchFeed env feedURL w).2.1 ++
          Event.Printf ("Browsing feed: " ++ rssFeed.Title ++ "\n") ::
            (rssFeed.Items.take (min L.toNat rssFeed.Items.length)).map
              (fun item => Event.Printf (browseLine item)),
        (fetchFeed env feedURL w).2.2) := by
    simp only [HandlerBrowse, hL, hfetch, browseItems_eq_take, hmin, Nat.sub_zero]
  refine ⟨hrun, ?_⟩
  intro e he
  rw [hrun] at he
  simp only [List.mem_append, List.mem_cons, List.mem_map] at he
  rcases he with he | rfl | ⟨item, -, rfl⟩
  · exact fetchFeed_no_store env feedURL w e he
  · rfl
  · rfl

/-- Witness of C6: browsing the sample feed of three items with limit `2`
prints the title and the first two items; with limit `7` it prints all three
and still returns `nil`; with no limit argument it behaves as with `2`. -/
theorem HandlerBrowse_output_witness :
    (HandlerBrowse sampleEnv { Name := "browse", Args := ["http://a", "2"] } sampleWorld).2.1 =
        [Event.HttpGet "http://a" "gator", Event.Printf "Browsing feed: News & Notes\n",
          Event.Printf "  - one <1>\n    \n    Link: http://a/1\n",
          Event.Printf "  - two\n    d2\n    Link: http://a/1\n"] ∧
      (HandlerBrowse sampleEnv { Name := "browse", Args := ["http://a", "7"] } sampleWorld).1 =
        none ∧
      (HandlerBrowse sampleEnv { Name := "browse", Args := ["http://a", "7"] }
          sampleWorld).2.1.length = 5 ∧
      (HandlerBrowse sampleEnv { Name := "browse", Args := ["http://a"] } sampleWorld).2.1 =
        (HandlerBrowse sampleEnv { Name := "browse", Args := ["http://a", "2"] }
          sampleWorld).2.1 :=
  have h2 := HandlerBrowse_output sampleEnv "browse" "http://a" ["2"] sampleWorld
    (unescapeFeed unescapeBasic sampleDecoded) 2 (Or.inr ⟨"2", [], rfl, rfl, by decide⟩) rfl
  have h7 := HandlerBrowse_output sampleEnv "browse" "http://a" ["7"] sampleWorld
    (unescapeFeed unescapeBasic sampleDecoded) 7 (Or.inr ⟨"7", [], rfl, rfl, by decide⟩) rfl
  have hd := HandlerBrowse_output sampleEnv "browse" "http://a" [] sampleWorld
    (unescapeFeed unescapeBasic sampleDecoded) 2 (Or.inl ⟨rfl, rfl⟩) rfl
  ⟨(congrArg (fun r => r.2.1) h2.1).trans (by decide),
    congrArg (fun r => r.1) h7.1,
    (congrArg (fun r => r.2.1.length) h7.1).trans (by decide),
    (congrArg (fun r => r.2.1) hd.1).trans (congrArg (fun r => r.2.1) h2.1).symm⟩


/-! ## Claims about `fetchFeed` -/

/-- C7: when the request is built, the response has status 200, its body is
read and decodes to `decoded`, `fetchFeed` returns a snapshot whose title and
description are `html.UnescapeString` applied once to the decoded title and
description, with as many items as decoded, the item at each index having
its title and description unescaped once and its link and `pubDate`
unchanged. -/
theorem fetchFeed_unescapes_once {W : Type} (env : Env W) (feedURL : String) (w : W)
    (resp : Response) (body : String) (decoded : RSSFeed)
    (hreq : env.NewRequest feedURL = none) (hdo : (env.Do feedURL w).1 = .ok resp)
    (hstatus : resp.StatusCode = 200) (hbody : resp.Body = .ok body)
    (hdecode : env.Unmarshal body = .ok decoded) :
    ∃ snapshot, (fetchFeed env feedURL w).1 = .ok snapshot ∧
      snapshot.Title = env.UnescapeString decoded.Title ∧
      snapshot.Description = env.UnescapeString decoded.Description ∧
      snapshot.Items.length = decoded.Items.length ∧
      (∀ i : Nat, snapshot.Items[i]? = decoded.Items[i]?.map fun item =>
        ({ Title := env.UnescapeString item.Title
           Description := env.UnescapeString item.Description
           Link := item.Link
           PubDate := item.PubDate } : Item)) ∧
      snapshot.Items.map (fun item => (item.Title, item.Description)) =
        decoded.Items.map (fun item =>
          (env.UnescapeString item.Title, env.UnescapeString item.Description)) ∧
      snapshot.Items.map (fun item => (item.Link, item.PubDate)) =
        decoded.Items.map (fun item => (item.Link, item.PubDate)) := by
  refine ⟨unescapeFeed env.UnescapeString decoded, ?_, rfl, rfl, ?_, ?_, ?_, ?_⟩
  · simp [fetchFeed, hreq, hdo, hstatus, hbody, hdecode]
  · simp [unescapeFeed]
  · intro i
    simp [unescapeFeed, List.getElem?_map]
  · simp [unescapeFeed, List.map_map, Function.comp_def]
  · simp [unescapeFeed, List.map_map, Function.comp_def]

/-- Witness of C7: the sample feed decodes with `&amp;`, `&lt;`, `&gt;` and
`&amp;lt;` in its texts; the snapshot has `&`, `<`, `>` and `&lt;` in their
place, and the links and dates as decoded. -/
theorem fetchFeed_unescapes_once_witness :
    ∃ snapshot, (fetchFeed sampleEnv "http://a" sampleWorld).1 = .ok snapshot ∧
      snapshot.Title = "News & Notes" ∧
      snapshot.Description = "a &lt; b" ∧
      snapshot.Items.map (fun item => (item.Title, item.Description)) =
        [("one <1>", ""), ("two", "d2"), ("three", "d3 & more")] ∧
      snapshot.Items.map (fun item => (item.Link, item.PubDate)) =
        [("http://a/1", "yesterday"), ("http://a/1", "Mon, 01 Jan 0001 00:00:00 +0000"),
          ("http://a/3", "Mon, 02 Jan 2006 15:04:05 -0700")] :=
  match fetchFeed_unescapes_once sampleEnv "http://a" sampleWorld
      { StatusCode := 200, Status := "200 OK", Body := .ok "A" } "A" sampleDecoded
      rfl rfl rfl rfl rfl with
  | ⟨snapshot, hok, htitle, hdesc, _, _, htexts, hlinks⟩ =>
    ⟨snapshot, hok, htitle.trans (by decide), hdesc.trans (by decide),
      htexts.trans (by decide), hlinks.trans (by decide)⟩


/-! ## Claims about `HandlerFollow` -/

/-- C9: when the lookup by URL reports "no rows", `HandlerFollow` does not
stop: its second call is `CreateFeedFollow` for the user and the ID of the row
the failed lookup returned, and its result is what that call decides, `nil`
or `failed to follow feed: ...`, never a not-found error. -/
theorem HandlerFollow_missing_feed {W : Type} (env : Env W) (name url : String) (user : User)
    (w : W) (hlookup : (env.GetFeedByURL url w).1.2 = some errNoRows) :
    ∃ tail,
      (HandlerFollow env { Name := name, Args := [url] } user w).2.1 =
        Event.GetFeedByURL url ::
          Event.CreateFeedFollow
            { UserID := user.ID, FeedID := (env.GetFeedByURL url w).1.1.ID } :: tail ∧
      (HandlerFollow env { Name := name, Args := [url] } user w).1 =
        (env.CreateFeedFollow { UserID := user.ID, FeedID := (env.GetFeedByURL url w).1.1.ID }
            (env.GetFeedByURL url w).2).1.2.map (fun err => "failed to follow feed: " ++ err) := by
  rcases hcreate : (env.CreateFeedFollow
      { UserID := user.ID, FeedID := (env.GetFeedByURL url w).1.1.ID }
      (env.GetFeedByURL url w).2).1.2 with _ | err
  · exact ⟨[Event.Printf ("User " ++
        (env.CreateFeedFollow { UserID := user.ID, FeedID := (env.GetFeedByURL url w).1.1.ID }
          (env.GetFeedByURL url w).2).1.1.UserName ++ " is now following feed " ++
        (env.CreateFeedFollow { UserID := user.ID, FeedID := (env.GetFeedByURL url w).1.1.ID }
          (env.GetFeedByURL url w).2).1.1.FeedName ++ "\n")],
      by simp [HandlerFollow, hlookup, hcreate], by simp [HandlerFollow, hlookup, hcreate]⟩
  · exact ⟨[], by simp [HandlerFollow, hlookup, hcreate], by simp [HandlerFollow, hlookup, hcreate]⟩

/-- Witness of C9: no sample feed has the URL `http://nowhere`; the lookup
returns the zero row and "no rows", and the handler calls `CreateFeedFollow`
with the zero feed ID. -/
theorem HandlerFollow_missing_feed_witness :
    (sampleEnv.GetFeedByURL "http://nowhere" sampleWorld).1 =
        (zeroFeed, some "sql: no rows in result set") ∧
      ∃ tail,
        (HandlerFollow sampleEnv { Name := "follow", Args := ["http://nowhere"] }
            { ID := 1, Name := "u" } sampleWorld).2.1 =
          Event.GetFeedByURL "http://nowhere" ::
            Event.CreateFeedFollow { UserID := 1, FeedID := 0 } :: tail :=
  ⟨rfl,
    (HandlerFollow_missing_feed sampleEnv "follow" "http://nowhere" { ID := 1, Name := "u" }
      sampleWorld rfl).imp fun _ h => h.1⟩


/-! ## Marking before fetching -/

/-- C11: when the mark-fetched call for the selected feed fails, the cycle
stops after reporting the error: its trace is the selection, the mark call
and one print, so it makes no network call and no insertion.  Conversely, a
cycle whose trace holds a network call or an insertion is one in which the
selection succeeded and the mark call for the selected feed returned no
error. -/
theorem scrapeFeeds_mark_failure {W : Type} (env : Env W) (w : W) :
    (∀ feed err w1 w2, env.GetNextFeedToFetch w = ((feed, none), w1) →
      env.MarkFeedFetched feed.ID w1 = (some err, w2) →
      scrapeFeeds env w =
          ([Event.GetNextFeedToFetch, Event.MarkFeedFetched feed.ID,
            Event.Printf ("Error marking feed as fetched: " ++ err ++ "\n")], w2) ∧
        ∀ e ∈ (scrapeFeeds env w).1, e.isFetch = false ∧ e.isCreatePost = false) ∧
    (∀ e ∈ (scrapeFeeds env w).1, e.isFetch = true ∨ e.isCreatePost = true →
      (env.GetNextFeedToFetch w).1.2 = none ∧
        (env.MarkFeedFetched (env.GetNextFeedToFetch w).1.1.ID
          (env.GetNextFeedToFetch w).2).1 = none) := by
  constructor
  · intro feed err w1 w2 hsel hmark
    have h := scrapeFeeds_of_mark_error env w w1 w2 feed err hsel hmark
    refine ⟨h, ?_⟩
    intro e he
    rw [h] at he
    simp only [List.mem_cons, List.mem_singleton, List.not_mem_nil, or_false] at he
    rcases he with rfl | rfl | rfl <;> exact ⟨rfl, rfl⟩
  · intro e he hkind
    rcases hsel : env.GetNextFeedToFetch w with ⟨⟨feed, _ | err⟩, w1⟩
    · rcases hmark : env.MarkFeedFetched feed.ID w1 with ⟨_ | err, w2⟩
      · exact ⟨rfl, by simp [hmark]⟩
      · rw [scrapeFeeds_of_mark_error env w w1 w2 feed err hsel hmark] at he
        simp only [List.mem_cons, List.mem_singleton, List.not_mem_nil, or_false] at he
        rcases he with rfl | rfl | rfl <;> simp [Event.isFetch, Event.isCreatePost] at hkind
    · rw [scrapeFeeds_of_select_error env w w1 feed err hsel] at he
      simp only [List.mem_cons, List.mem_singleton, List.not_mem_nil, or_false] at he
      rcases he with rfl | rfl <;> simp [Event.isFetch, Event.isCreatePost] at hkind

/-- Witness of C11: with a store that refuses the mark, the cycle selects
feed 7, tries to mark it, reports the error and stops; with the sample store,
whose mark succeeds, the GET of the feed is in the trace. -/
theorem scrapeFeeds_mark_failure_witness :
    scrapeFeeds markFailEnv sampleWorld =
        ([Event.GetNextFeedToFetch, Event.MarkFeedFetched 7,
          Event.Printf "Error marking feed as fetched: driver: bad connection\n"],
          sampleWorld) ∧
      (sampleEnv.MarkFeedFetched 7 sampleWorld).1 = none :=
  ⟨((scrapeFeeds_mark_failure markFailEnv sampleWorld).1 (mkFeed 7 "A" "http://a")
      "driver: bad connection" sampleWorld sampleWorld rfl rfl).1,
    ((scrapeFeeds_mark_failure sampleEnv sampleWorld).2 (Event.HttpGet "http://a" "gator")
      (by decide) (Or.inl rfl)).2⟩

end Gator
